import Mathlib

/-!
Shallow embedding of the ignitegym screens (src/src/screens) and of the
session-core pieces the spec describes.

Conventions used throughout:
* An awaited API call is embedded by passing its outcome as an explicit
  argument of type `Except ApiFailure α`; a `.error` value corresponds to the
  call throwing (which in the source jumps to the enclosing catch block).
* `toast.show({title, placement, bgColor})` is embedded as appending a
  `Toast` value to the list of toasts the handler produced; `placement` is
  always the literal string top in the source and is omitted.
* JavaScript objects are passed by reference: `const userUpdated = user`
  copies the reference, so a later field assignment through `userUpdated`
  mutates the context user object itself.  The embedding therefore returns
  the value of that shared object after the handler ran.
* JS string truthiness: the empty string is falsy, every other string truthy.
-/

namespace IgniteGym

/-- The user profile object held by the auth context (`useAuth().user`),
with the fields the screens read and write. `avatar` is optional
(`user.avatar` is used as a truthy test in the source). -/
structure User where
  id : String
  name : String
  email : String
  avatar : Option String
deriving Repr, DecidableEq

/-- Background colour passed to `toast.show`; the source only ever uses
red.500 (errors) and green.500 (success). -/
inductive ToastColor where
  | red
  | green
deriving Repr, DecidableEq

/-- One `toast.show({title, placement: top, bgColor})` call. -/
structure Toast where
  title : String
  bgColor : ToastColor
deriving Repr, DecidableEq

/-- A thrown error as the screens classify it: `error instanceof AppError`
(a structured application error carrying the server message) or anything
else (network failure, unstructured 5xx, ...). -/
inductive ApiFailure where
  | appError (message : String)
  | other
deriving Repr, DecidableEq

/-- `isAppError ? error.message : generic` — the title every catch block
computes from the caught error. -/
def appErrorTitle (generic : String) : ApiFailure → String
  | .appError m => m
  | .other => generic

/-! ### Profile screen (src/src/screens/Profile.tsx) -/

/-- `FormDataProps` of Profile.tsx. -/
structure ProfileFormData where
  email : String
  name : String
  old_password : String
  password : String
  confirm_password : String
deriving Repr, DecidableEq

/-- `transform((value) => !!value ? value : null)`: yup transform mapping a
falsy string (only the empty string here) to null. -/
def transformNullable (v : String) : Option String :=
  if v = "" then none else some v

/-- The `password` field of `profileSchema`:
`yup.string().min(6).nullable().transform(...)`.  Transforms run before
tests, so the empty string becomes null, which `nullable()` accepts and the
`min(6)` test skips; a present value must have length at least 6. -/
def passwordFieldOk (password : String) : Bool :=
  match transformNullable password with
  | none => true
  | some p => decide (6 ≤ p.length)

/-- The `confirm_password` field of `profileSchema`:
`nullable().transform(...).oneOf([ref(password), '']).when(password, {is: truthy,
then: required})`.  After the transform the value is null or a non-empty
string; `oneOf` passes absent values and otherwise requires membership in
{password value (after its own transform), empty string}; the `when` clause
adds `required` exactly when the sibling password is truthy. -/
def confirmFieldOk (password confirm : String) : Bool :=
  let p := transformNullable password
  let c := transformNullable confirm
  let oneOfOk :=
    match c with
    | none => true
    | some cv => some cv == p || cv == ""
  let requiredOk := !p.isSome || c.isSome
  oneOfOk && requiredOk

/-- `profileSchema`: name required, password and confirm_password as above
(the email and old_password fields carry no rules). -/
def profileFormValid (name password confirm : String) : Bool :=
  (name != "") && passwordFieldOk password && confirmFieldOk password confirm

/-- Observable result of `handleProfileUpdate`: the context user object
after the handler, the toasts shown, and the final `isUpdating` flag. -/
structure ProfileUpdateResult where
  user : User
  toasts : List Toast
  isUpdating : Bool
deriving Repr, DecidableEq

def profileUpdateGenericError : String :=
  "Não possível atualizar os dados. Tente novamente mais tarde."

/-- `handleProfileUpdate(data)` of Profile.tsx (lines 131-159).
`const userUpdated = user` copies the object reference, so
`userUpdated.name = data.name` mutates the context user object itself, and
it does so before `api.put('/users', data)` is awaited; hence the mutated
object is returned on every path, including a failed PUT.  On a successful
PUT the handler awaits `updateUserProfile(userUpdated)` (outcome passed as
`updOutcome`) and shows the success toast; any throw lands in the catch
block, which shows a red toast; `finally` clears `isUpdating`. -/
def handleProfileUpdate (user : User) (data : ProfileFormData)
    (putOutcome : Except ApiFailure Unit) (updOutcome : Except ApiFailure Unit) :
    ProfileUpdateResult :=
  let userUpdated : User := { user with name := data.name }
  match putOutcome with
  | .error e =>
      { user := userUpdated
        toasts := [⟨appErrorTitle profileUpdateGenericError e, .red⟩]
        isUpdating := false }
  | .ok _ =>
      match updOutcome with
      | .error e =>
          { user := userUpdated
            toasts := [⟨appErrorTitle profileUpdateGenericError e, .red⟩]
            isUpdating := false }
      | .ok _ =>
          { user := userUpdated
            toasts := [⟨"Perfil atualizado com sucesso!", .green⟩]
            isUpdating := false }

/-- Outcome of `ImagePicker.launchImageLibraryAsync`: the user canceled, or
an asset with a uri and a type was picked. -/
inductive PickOutcome where
  | canceled
  | picked (uri : String) (ty : String)
deriving Repr, DecidableEq

/-- Observable result of `handleUserPhotoSelect`: the context user object,
the toasts shown, how many network calls were issued, whether a thrown
error was caught and only logged to the console (`catch { console.log }`),
and the final `photoIsLoading` flag. -/
structure PhotoSelectResult where
  user : User
  toasts : List Toast
  networkCalls : Nat
  errorSwallowed : Bool
  photoIsLoading : Bool
deriving Repr, DecidableEq

/-- `photoInfo.size && (photoInfo.size / 1024 / 1024) > 5` of Profile.tsx
line 90: the size in bytes is first tested for truthiness (0 is falsy) and
the limit test uses JS real division, embedded over ℚ. -/
def photoTooLarge (size : Nat) : Bool :=
  size != 0 && decide ((5 : ℚ) < (size : ℚ) / 1024 / 1024)

def photoTooLargeTitle : String :=
  "Essa imagem é muito grande. Escolha uam de até 5MB."

/-- `handleUserPhotoSelect()` of Profile.tsx (lines 74-129).  Control flow
of the source, with each awaited call an explicit outcome argument:
returns early on a canceled pick or a falsy uri; if the size limit is
exceeded it shows the red toast but — there being no return statement in
that branch — falls through to the upload; `api.patch('/users/avatar', ...)`
is always reached (one network call); on success the aliased context user
object gets the returned avatar and `updateUserProfile` is awaited, then the
green toast; any throw is caught by `catch (error) { console.log(error) }`,
which neither shows a toast nor rethrows.  The construction of the
multipart form body (file name, mime type) is elided: it does not affect
any observable of this model. -/
def handleUserPhotoSelect (user : User) (pick : PickOutcome) (size : Nat)
    (patchOutcome : Except ApiFailure String) (updOutcome : Except ApiFailure Unit) :
    PhotoSelectResult :=
  match pick with
  | .canceled => ⟨user, [], 0, false, false⟩
  | .picked uri _ty =>
      if uri = "" then ⟨user, [], 0, false, false⟩
      else
        let sizeToasts := if photoTooLarge size then [⟨photoTooLargeTitle, .red⟩] else []
        match patchOutcome with
        | .error _ => ⟨user, sizeToasts, 1, true, false⟩
        | .ok avatarRef =>
            let userUpdated : User := { user with avatar := some avatarRef }
            match updOutcome with
            | .error _ => ⟨userUpdated, sizeToasts, 1, true, false⟩
            | .ok _ => ⟨userUpdated, sizeToasts ++ [⟨"Foto atualizada", .green⟩], 1, false, false⟩

/-! ### Sign-in screen (src/src/screens/SignIn.tsx) -/

/-- Session Status of the spec's data model (§3). -/
inductive SessionStatus where
  | unknown
  | signedOut
  | signedIn
deriving Repr, DecidableEq

/-- Modelled from the spec: the Session Context `signIn` operation
(§4.4).  The AuthContext implementing it is not under src/ — only its
screen callers are — so the status effect is taken from the spec's words:
on success it sets status `signedIn`; on failure it leaves the status
unchanged and propagates the classified error to the caller. -/
def signInCtxStatus (status : SessionStatus) (outcome : Except ApiFailure User) :
    SessionStatus :=
  match outcome with
  | .ok _ => .signedIn
  | .error _ => status

def signInGenericError : String :=
  "Não foi possível entrar. Tente novamente mais tarde"

/-- Observable result of `handleSignIn`: session status afterwards, the
toasts shown, and the final `isLoading` flag. -/
structure SignInHandlerResult where
  status : SessionStatus
  toasts : List Toast
  isLoading : Bool
deriving Repr, DecidableEq

/-- `handleSignIn({email, password})` of SignIn.tsx (lines 47-64): awaits
`signIn(email, password)`; a throw is caught, `isLoading` is cleared and a
red toast is shown with the AppError message or the generic title; on
success nothing further happens in the handler (`isLoading` stays true). -/
def handleSignIn (status : SessionStatus) (outcome : Except ApiFailure User) :
    SignInHandlerResult :=
  match outcome with
  | .ok u => ⟨signInCtxStatus status (.ok u), [], true⟩
  | .error e =>
      ⟨signInCtxStatus status (.error e),
       [⟨appErrorTitle signInGenericError e, .red⟩], false⟩

/-! ### Sign-up screen (src/src/screens/SignUp.tsx) -/

def signUpGenericError : String :=
  "Não foi possível criar a conta. Tente novamente mais tarde."

/-- Observable result of `handleSignUp`: the toasts shown and the final
`isLoading` flag. -/
structure SignUpHandlerResult where
  toasts : List Toast
  isLoading : Bool
deriving Repr, DecidableEq

/-- `handleSignUp({name, email, password})` of SignUp.tsx (lines 52-70):
awaits `api.post('/users', ...)` then `await signIn(email, password)`, both
inside one try block with a single catch that clears `isLoading` and shows
a red toast with the AppError message or the generic account-creation
title.  Which of the two awaited calls threw is not recorded anywhere. -/
def handleSignUp (regOutcome : Except ApiFailure Unit)
    (signInOutcome : Except ApiFailure Unit) : SignUpHandlerResult :=
  match regOutcome with
  | .error e => ⟨[⟨appErrorTitle signUpGenericError e, .red⟩], false⟩
  | .ok _ =>
      match signInOutcome with
      | .error e => ⟨[⟨appErrorTitle signUpGenericError e, .red⟩], false⟩
      | .ok _ => ⟨[], true⟩

/-! ### Form schemas and the react-hook-form submit gate -/

/-- The sign-in form fields. -/
structure SignInForm where
  email : String
  password : String
deriving Repr, DecidableEq

/-- `signInSchema`: `email: yup.string().required(...)`,
`password: yup.string().required(...)`; for strings `required` rejects the
absent and the empty value. -/
def signInFormValid (f : SignInForm) : Bool :=
  f.email != "" && f.password != ""

/-- The sign-up form fields. -/
structure SignUpForm where
  name : String
  email : String
  password : String
  password_confirm : String
deriving Repr, DecidableEq

/-- `signUpSchema`: name required; email required and well-formed (yup's
email format test, kept abstract as the `emailOk` parameter since it is a
library-internal regular expression); password required with at least 6
characters; password_confirm required and `oneOf([ref('password'), ''])`. -/
def signUpFormValid (emailOk : String → Bool) (f : SignUpForm) : Bool :=
  f.name != "" && (f.email != "" && emailOk f.email) &&
    (f.password != "" && decide (6 ≤ f.password.length)) &&
    (f.password_confirm != "" && (f.password_confirm == f.password || f.password_confirm == ""))

/-- What a form submission did: whether the wrapped submit handler ran,
and how many network calls were issued. -/
structure SubmitResult where
  handlerInvoked : Bool
  networkCalls : Nat
deriving Repr, DecidableEq

/-- `handleSubmit(handler)` of react-hook-form with a `yupResolver`: the
resolver validates the form against the schema first, and the handler runs
only when validation succeeds; a validation failure only populates the
screen-local `errors` object. -/
def handleSubmitGate (valid : Bool) (handlerNetworkCalls : Nat) : SubmitResult :=
  if valid then ⟨true, handlerNetworkCalls⟩ else ⟨false, 0⟩

/-- Pressing Acessar: `handleSubmit(handleSignIn)`; the handler makes one
network call (the sign-in request). -/
def submitSignIn (f : SignInForm) : SubmitResult :=
  handleSubmitGate (signInFormValid f) 1

/-- Pressing Criar e acessar: `handleSubmit(handleSignUp)`; the handler
makes up to two network calls (registration, then sign-in). -/
def submitSignUp (emailOk : String → Bool) (f : SignUpForm) : SubmitResult :=
  handleSubmitGate (signUpFormValid emailOk f) 2

/-! ### Home screen (src/src/screens/Home.tsx) -/

/-- `ExerciseDTO` as the Home screen uses it (`item.id` for keys and
navigation). -/
structure Exercise where
  id : String
  name : String
deriving Repr, DecidableEq

/-- The Home screen's pieces of state. -/
structure HomeState where
  isLoading : Bool
  groups : List String
  groupSelected : String
  exercises : List Exercise
deriving Repr, DecidableEq

def groupsGenericError : String :=
  "Não foi possível carregar os grupos musculares."

def exercisesGenericError : String :=
  "Não foi possível carregar os exercícios."

/-- `fetchGroups()` of Home.tsx (lines 30-44): awaits `api.get('/groups')`
and stores the payload with `setGroups`; a throw is caught and only shows a
red toast — no state setter runs on the error path. -/
def fetchGroups (s : HomeState) (resp : Except ApiFailure (List String)) :
    HomeState × List Toast :=
  match resp with
  | .ok gs => ({ s with groups := gs }, [])
  | .error e => (s, [⟨appErrorTitle groupsGenericError e, .red⟩])

/-- `fetchExercisesByGroups()` of Home.tsx (lines 47-64): sets `isLoading`,
awaits the by-group exercise list and stores it with `setExercises`; a
throw is caught and shows a red toast; `finally` clears `isLoading` on both
paths. -/
def fetchExercisesByGroups (s : HomeState) (resp : Except ApiFailure (List Exercise)) :
    HomeState × List Toast :=
  match resp with
  | .ok es => ({ s with exercises := es, isLoading := false }, [])
  | .error e => ({ s with isLoading := false }, [⟨appErrorTitle exercisesGenericError e, .red⟩])

/-- One-to-one uppercase map for ASCII and the Latin-1 letters, the
fragment of `toLocaleUpperCase` the app's group names exercise ('ç' ↦ 'Ç');
the multi-character and locale-special cases (ß, dotted i) fall outside the
data this screen handles and are left untouched. -/
def jsCharUpper (c : Char) : Char :=
  if 'a' ≤ c && c ≤ 'z' then Char.ofNat (c.toNat - 32)
  else if 0xE0 ≤ c.toNat && c.toNat ≤ 0xFE && c.toNat != 0xF7 then Char.ofNat (c.toNat - 32)
  else c

/-- `s.toLocaleUpperCase()` over the modelled alphabet, character by
character. -/
def jsUpper (s : String) : String := ⟨s.data.map jsCharUpper⟩

/-- `groupSelected.toLocaleUpperCase() === item.toLocaleUpperCase()` —
the `isActive` prop computed for each rendered Group (Home.tsx line 84). -/
def isActiveGroup (groupSelected item : String) : Bool :=
  jsUpper groupSelected == jsUpper item

/-- The horizontal FlatList render: each fetched group name paired with its
`isActive` prop. -/
def renderGroups (groups : List String) (groupSelected : String) :
    List (String × Bool) :=
  groups.map fun item => (item, isActiveGroup groupSelected item)

/-! ### Renewal Coordinator (spec §4.3)

Modelled from the spec: the Renewal Coordinator — the API-layer response
interceptor holding the single-flight renewal exchange and its queue of
requests that failed with `authExpired` — is not under src/ (only the
screens are).  The state machine below follows §4.3's words. -/

/-- Coordinator state: whether a renewal exchange is in flight, the Pending
Request Set in arrival order, and how many renewal exchanges were ever
issued. -/
structure CoordState where
  renewing : Bool
  pending : List Nat
  exchanges : Nat
deriving Repr, DecidableEq

/-- Modelled from the spec: the Idle state — no renewal in progress,
nothing pending. -/
def coordIdle : CoordState := ⟨false, [], 0⟩

/-- Modelled from the spec: a request `r` receives an `authExpired`
classification.  From Idle this starts the one renewal exchange and
enqueues `r`; while Renewing the request is captured into the Pending
Request Set and no second exchange is issued. -/
def onAuthExpired (s : CoordState) (r : Nat) : CoordState :=
  if s.renewing then { s with pending := s.pending ++ [r] }
  else { renewing := true, pending := s.pending ++ [r], exchanges := s.exchanges + 1 }

/-- How one captured request eventually resolves. -/
inductive Resolution where
  | replayed (ok : Bool)
  | sessionExpired
deriving Repr, DecidableEq

/-- Modelled from the spec: the renewal exchange settles.  On success every
pending request is replayed in arrival order and resolves to its caller
with the replay's outcome; on failure every pending request fails with the
distinct `sessionExpired` error.  Either way the Pending Request Set is
cleared and the coordinator returns to Idle. -/
def settleRenewal (renewalSucceeded : Bool) (replayOk : Nat → Bool) (s : CoordState) :
    CoordState × List (Nat × Resolution) :=
  if renewalSucceeded then
    (⟨false, [], s.exchanges⟩, s.pending.map fun r => (r, .replayed (replayOk r)))
  else
    (⟨false, [], s.exchanges⟩, s.pending.map fun r => (r, .sessionExpired))

/-- N concurrent requests, submission order `rs`, each independently
receiving `authExpired` while the coordinator starts Idle. -/
def receiveAll (rs : List Nat) : CoordState :=
  rs.foldl onAuthExpired coordIdle

/-! ## Theorems -/

/-- The source's size test `photoInfo.size / 1024 / 1024 > 5` (JS real
division over the byte count) agrees with the integer comparison against
5 MiB = 5242880 bytes. -/
theorem photoTooLarge_eq (size : Nat) :
    photoTooLarge size = (size != 0 && decide (5 * 1024 * 1024 < size)) := by
  unfold photoTooLarge
  congr 1
  rw [decide_eq_decide, div_div, lt_div_iff₀ (by norm_num : (0:ℚ) < 1024 * 1024)]
  constructor
  · intro h
    exact_mod_cast h
  · intro h
    exact_mod_cast h

/-- C1: the claim that a failed profile update leaves the User byte-for-byte
equal to its pre-call value fails on the code.  `handleProfileUpdate` writes
`data.name` through the alias `userUpdated = user` before awaiting the PUT,
so when the PUT fails the observable User already carries the new name:
evaluated at a user named old name, a patch renaming to new name, and a
failing PUT, the resulting User equals the renamed record, which differs
from the pre-call value. -/
theorem c1_profile_update_mutates_before_confirm :
    (handleProfileUpdate ⟨"1", "old name", "m@x.c", none⟩
        ⟨"m@x.c", "new name", "", "", ""⟩ (.error .other) (.ok ())).user =
      ⟨"1", "new name", "m@x.c", none⟩ ∧
    (⟨"1", "new name", "m@x.c", none⟩ : User) ≠ ⟨"1", "old name", "m@x.c", none⟩ := by
  decide

/-- C2: the claim that an avatar larger than 5 MiB is rejected locally with
zero network calls fails on the code.  The oversize branch shows the red
toast but has no return statement, so at size 5 MiB + 1 byte the handler
still issues the PATCH (one network call) and, the upload succeeding,
commits the avatar and shows the success toast right after the
too-large toast. -/
theorem c2_avatar_size_gate_not_enforced :
    handleUserPhotoSelect ⟨"1", "maurici", "m@x.c", none⟩ (.picked "photo.png" "image")
        (5 * 1024 * 1024 + 1) (.ok "x.png") (.ok ()) =
      ⟨⟨"1", "maurici", "m@x.c", some "x.png"⟩,
       [⟨photoTooLargeTitle, .red⟩, ⟨"Foto atualizada", .green⟩], 1, false, false⟩ := by
  have hbig : photoTooLarge (5 * 1024 * 1024 + 1) = true := by
    rw [photoTooLarge_eq]; decide
  simp [handleUserPhotoSelect, hbig]

/-- Folding further `authExpired` arrivals over a state already Renewing
only appends to the Pending Request Set. -/
theorem foldl_onAuthExpired_of_renewing (rs : List Nat) (s : CoordState)
    (h : s.renewing = true) :
    rs.foldl onAuthExpired s = { s with pending := s.pending ++ rs } := by
  induction rs generalizing s with
  | nil => simp
  | cons r rs ih =>
      have hs : onAuthExpired s r = { s with pending := s.pending ++ [r] } := by
        simp [onAuthExpired, h]
      rw [List.foldl_cons, hs, ih _ (by simp [h])]
      simp

/-- A non-empty batch of `authExpired` arrivals from Idle: one exchange,
all requests pending in arrival order. -/
theorem receiveAll_cons (r : Nat) (rs : List Nat) :
    receiveAll (r :: rs) = ⟨true, r :: rs, 1⟩ := by
  unfold receiveAll
  rw [List.foldl_cons]
  have h1 : onAuthExpired coordIdle r = ⟨true, [r], 1⟩ := by
    simp [onAuthExpired, coordIdle]
  rw [h1, foldl_onAuthExpired_of_renewing rs _ rfl]
  simp

/-- Projecting the request ids out of the pairing map gives the list back. -/
theorem map_fst_pair (f : Nat → Resolution) (l : List Nat) :
    (l.map (fun r => (r, f r))).map Prod.fst = l := by
  induction l with
  | nil => rfl
  | cons a l ih => simp [ih]

/-- Settling resolves exactly the pending requests, in order. -/
theorem settle_map_fst (b : Bool) (ok : Nat → Bool) (s : CoordState) :
    (settleRenewal b ok s).2.map Prod.fst = s.pending := by
  cases b with
  | true => exact map_fst_pair _ _
  | false => exact map_fst_pair _ _

/-- Every resolution produced by settling is a replay outcome or the
distinct `sessionExpired` error. -/
theorem settle_resolution (b : Bool) (ok : Nat → Bool) (s : CoordState)
    (p : Nat × Resolution) (hp : p ∈ (settleRenewal b ok s).2) :
    p.2 = Resolution.replayed (ok p.1) ∨ p.2 = Resolution.sessionExpired := by
  cases b with
  | true =>
      simp only [settleRenewal, if_pos] at hp
      rw [List.mem_map] at hp
      obtain ⟨x, hx, hpe⟩ := hp
      subst hpe
      exact Or.inl rfl
  | false =>
      simp only [settleRenewal, Bool.false_eq_true, if_neg, not_false_eq_true] at hp
      rw [List.mem_map] at hp
      obtain ⟨x, hx, hpe⟩ := hp
      subst hpe
      exact Or.inr rfl

/-- C3: for every batch of N ≥ 2 concurrent requests that each receive an
`authExpired` classification, exactly one renewal exchange is issued, every
request resolves (to its replay outcome or to `sessionExpired`, never a
hang: each appears exactly once, in submission order, in the resolution
list), and the coordinator returns to Idle with an empty Pending Request
Set. -/
theorem c3_single_flight_renewal (rs : List Nat) (h : 2 ≤ rs.length)
    (renewalSucceeded : Bool) (replayOk : Nat → Bool) :
    (receiveAll rs).exchanges = 1 ∧
    ((settleRenewal renewalSucceeded replayOk (receiveAll rs)).2.map Prod.fst = rs ∧
     ∀ p ∈ (settleRenewal renewalSucceeded replayOk (receiveAll rs)).2,
       p.2 = Resolution.replayed (replayOk p.1) ∨ p.2 = Resolution.sessionExpired) ∧
    (settleRenewal renewalSucceeded replayOk (receiveAll rs)).1.renewing = false ∧
    (settleRenewal renewalSucceeded replayOk (receiveAll rs)).1.pending = [] := by
  match rs with
  | r :: rs =>
    refine ⟨?_, ⟨?_, ?_⟩, ?_, ?_⟩
    · rw [receiveAll_cons]
    · rw [settle_map_fst, receiveAll_cons]
    · intro p hp
      exact settle_resolution _ _ _ p hp
    · cases renewalSucceeded <;> rfl
    · cases renewalSucceeded <;> rfl

/-- C3 witness: the single-flight theorem evaluated at the concrete batch
[0, 1] with a successful renewal. -/
theorem c3_single_flight_renewal_witness :
    (receiveAll [0, 1]).exchanges = 1 ∧
    ((settleRenewal true (fun _ => true) (receiveAll [0, 1])).2.map Prod.fst = [0, 1] ∧
     ∀ p ∈ (settleRenewal true (fun _ => true) (receiveAll [0, 1])).2,
       p.2 = Resolution.replayed ((fun _ => true) p.1) ∨ p.2 = Resolution.sessionExpired) ∧
    (settleRenewal true (fun _ => true) (receiveAll [0, 1])).1.renewing = false ∧
    (settleRenewal true (fun _ => true) (receiveAll [0, 1])).1.pending = [] :=
  c3_single_flight_renewal [0, 1] (by decide) true (fun _ => true)

/-- C4 counterexample: a failure of the post-registration sign-in is not
reported distinctly from a registration failure — at a concrete input
(registration succeeds, sign-in throws an unclassified error) the handler
produces exactly the same observable result as when registration itself
throws the same error. -/
theorem c4_signup_signin_failure_indistinguishable :
    handleSignUp (.ok ()) (.error .other) = handleSignUp (.error .other) (.ok ()) := rfl

/-- C4 amended: a failure during the post-registration sign-in is reported
through the same catch block and in the same form as a registration
failure — the classified server message when the error is an AppError,
otherwise the one generic account-creation message — so the two steps are
not distinguished. -/
theorem c4_signup_failure_same_report (e : ApiFailure) (r : Except ApiFailure Unit) :
    handleSignUp (.ok ()) (.error e) =
      ⟨[⟨appErrorTitle signUpGenericError e, .red⟩], false⟩ ∧
    handleSignUp (.error e) r =
      ⟨[⟨appErrorTitle signUpGenericError e, .red⟩], false⟩ ∧
    handleSignUp (.ok ()) (.error e) = handleSignUp (.error e) r :=
  ⟨rfl, rfl, rfl⟩

/-- C5 counterexample: an avatar upload failure is silently swallowed — at
a concrete input (valid pick, small image, PATCH throws) the handler shows
no toast, does not rethrow, and only console-logs (`errorSwallowed`),
contradicting the claim that only the sign-out call may swallow errors. -/
theorem c5_avatar_upload_error_swallowed :
    handleUserPhotoSelect ⟨"1", "maurici", "m@x.c", none⟩ (.picked "a.png" "image") 100
        (.error .other) (.ok ()) =
      ⟨⟨"1", "maurici", "m@x.c", none⟩, [], 1, true, false⟩ := by
  have hsmall : photoTooLarge 100 = false := by
    rw [photoTooLarge_eq]; decide
  simp [handleUserPhotoSelect, hsmall]

/-- C5 amended: every failure in the embedded screen operations produces a
user-visible toast, except the avatar-selection/upload flow, whose catch
block swallows any thrown error with only a console log (its toasts are at
most the local size warning, never a report of the thrown error). -/
theorem c5_errors_surfaced_except_avatar_flow :
    (∀ (u : User) (d : ProfileFormData) (e : ApiFailure) (upd : Except ApiFailure Unit),
      (handleProfileUpdate u d (.error e) upd).toasts ≠ []) ∧
    (∀ (u : User) (d : ProfileFormData) (e : ApiFailure),
      (handleProfileUpdate u d (.ok ()) (.error e)).toasts ≠ []) ∧
    (∀ (st : SessionStatus) (e : ApiFailure), (handleSignIn st (.error e)).toasts ≠ []) ∧
    (∀ (e : ApiFailure) (r : Except ApiFailure Unit),
      (handleSignUp (.error e) r).toasts ≠ []) ∧
    (∀ (e : ApiFailure), (handleSignUp (.ok ()) (.error e)).toasts ≠ []) ∧
    (∀ (s : HomeState) (e : ApiFailure), (fetchGroups s (.error e)).2 ≠ []) ∧
    (∀ (s : HomeState) (e : ApiFailure), (fetchExercisesByGroups s (.error e)).2 ≠ []) ∧
    (∀ (u : User) (uri ty : String) (size : Nat) (e : ApiFailure)
        (upd : Except ApiFailure Unit), uri ≠ "" →
      (handleUserPhotoSelect u (.picked uri ty) size (.error e) upd).errorSwallowed = true ∧
      (handleUserPhotoSelect u (.picked uri ty) size (.error e) upd).toasts =
        (if photoTooLarge size then [⟨photoTooLargeTitle, .red⟩] else [])) := by
  refine ⟨?_, ?_, ?_, ?_, ?_, ?_, ?_, ?_⟩
  · intro u d e upd
    simp [handleProfileUpdate]
  · intro u d e
    simp [handleProfileUpdate]
  · intro st e
    simp [handleSignIn]
  · intro e r
    simp [handleSignUp]
  · intro e
    simp [handleSignUp]
  · intro s e
    simp [fetchGroups]
  · intro s e
    simp [fetchExercisesByGroups]
  · intro u uri ty size e upd huri
    simp [handleUserPhotoSelect, huri]

/-- C5 amended witness: the avatar-flow clause evaluated at a concrete
failing upload. -/
theorem c5_errors_surfaced_witness :
    (handleUserPhotoSelect ⟨"1", "maurici", "m@x.c", none⟩ (.picked "a.png" "image") 100
        (.error .other) (.ok ())).errorSwallowed = true :=
  (c5_errors_surfaced_except_avatar_flow.2.2.2.2.2.2.2
    ⟨"1", "maurici", "m@x.c", none⟩ "a.png" "image" 100 .other (.ok ()) (by decide)).1

/-- C6: a sign-in attempt failing with a classified domain error leaves the
Session Status `signedOut` and shows a red toast carrying the server's own
message; any other failure leaves the status `signedOut` and shows the
generic sign-in message instead. -/
theorem c6_signin_failure_leaves_signed_out (m : String) :
    handleSignIn .signedOut (.error (.appError m)) =
      ⟨.signedOut, [⟨m, .red⟩], false⟩ ∧
    handleSignIn .signedOut (.error .other) =
      ⟨.signedOut, [⟨signInGenericError, .red⟩], false⟩ :=
  ⟨rfl, rfl⟩

/-- C7: a form input failing local schema validation — missing email or
password on sign-in; missing name, malformed email, a password shorter than
6 characters, or a mismatched confirmation on sign-up — never reaches the
submit handler: the submission reports the handler as not invoked and zero
network calls. -/
theorem c7_local_validation_blocks_submit (emailOk : String → Bool)
    (f : SignInForm) (g : SignUpForm) :
    ((f.email = "" ∨ f.password = "") → submitSignIn f = ⟨false, 0⟩) ∧
    ((g.name = "" ∨ emailOk g.email = false ∨ g.password.length < 6 ∨
        g.password_confirm ≠ g.password) →
      submitSignUp emailOk g = ⟨false, 0⟩) := by
  constructor
  · rintro (h | h) <;> simp [submitSignIn, handleSubmitGate, signInFormValid, h]
  · intro h
    have hv : signUpFormValid emailOk g = false := by
      rcases h with h | h | h | h
      · simp [signUpFormValid, h]
      · simp [signUpFormValid, h]
      · have h6 : decide (6 ≤ g.password.length) = false := by
          simp only [decide_eq_false_iff_not]
          omega
        simp [signUpFormValid, h6]
      · by_cases hpc : g.password_confirm = ""
        · simp [signUpFormValid, hpc]
        · simp [signUpFormValid, hpc, h]
    simp [submitSignUp, handleSubmitGate, hv]

/-- C7 witness: the validation gate evaluated at a sign-in form with a
missing email and a sign-up form with a 3-character password. -/
theorem c7_local_validation_blocks_submit_witness :
    submitSignIn ⟨"", "123456"⟩ = ⟨false, 0⟩ ∧
    submitSignUp (fun _ => true) ⟨"nome", "a@b", "123", "123"⟩ = ⟨false, 0⟩ :=
  ⟨(c7_local_validation_blocks_submit (fun _ => true) ⟨"", "123456"⟩
      ⟨"nome", "a@b", "123", "123"⟩).1 (Or.inl rfl),
   (c7_local_validation_blocks_submit (fun _ => true) ⟨"", "123456"⟩
      ⟨"nome", "a@b", "123", "123"⟩).2 (Or.inr (Or.inr (Or.inl (by decide))))⟩

/-- C8: in `profileSchema`, the password-change fields are required only
when a new password is present — with an empty new password an empty
confirmation is accepted, and with a non-empty new password validation
succeeds exactly when the password has at least 6 characters and the
confirmation is present and equal to it. -/
theorem c8_profile_password_fields_conditional (name p c : String) (hn : name ≠ "") :
    (p = "" → profileFormValid name p "" = true) ∧
    (p ≠ "" → (profileFormValid name p c = true ↔ (6 ≤ p.length ∧ c ≠ "" ∧ c = p))) := by
  constructor
  · intro hp
    subst hp
    simp [profileFormValid, passwordFieldOk, confirmFieldOk, transformNullable, hn]
  · intro hp
    by_cases hc : c = ""
    · subst hc
      simp [profileFormValid, passwordFieldOk, confirmFieldOk, transformNullable, hn, hp]
    · simp [profileFormValid, passwordFieldOk, confirmFieldOk, transformNullable, hn, hp, hc]

/-- C8 witness: the conditional rule evaluated at a 7-character password
with matching confirmation. -/
theorem c8_profile_password_fields_conditional_witness :
    profileFormValid "Maurici" "1234567" "1234567" = true :=
  ((c8_profile_password_fields_conditional "Maurici" "1234567" "1234567"
      (by decide)).2 (by decide)).mpr (by decide)

/-- C9: a failed fetch of the muscle-group list leaves the Home state
untouched (only a toast is shown), and a failed fetch of the
exercises-by-group list changes nothing but the loading flag, which is
cleared, again with a toast. -/
theorem c9_home_fetch_failure_preserves_lists (s : HomeState) (e : ApiFailure) :
    fetchGroups s (.error e) = (s, [⟨appErrorTitle groupsGenericError e, .red⟩]) ∧
    (fetchExercisesByGroups s (.error e)).1 = { s with isLoading := false } ∧
    (fetchExercisesByGroups s (.error e)).1.groups = s.groups ∧
    (fetchExercisesByGroups s (.error e)).1.exercises = s.exercises ∧
    (fetchExercisesByGroups s (.error e)).1.isLoading = false ∧
    (fetchExercisesByGroups s (.error e)).2 = [⟨appErrorTitle exercisesGenericError e, .red⟩] :=
  ⟨rfl, rfl, rfl, rfl, rfl, rfl⟩

/-- C10: a rendered group is active exactly when its name equals the
selected group name after locale-uppercasing both sides; the match depends
only on the uppercased forms (case-insensitivity), and it identifies
antebraço with ANTEBRAÇO, ç included. -/
theorem c10_home_active_group_caseless (groups : List String) (sel g : String) (b : Bool) :
    ((g, b) ∈ renderGroups groups sel → (b = true ↔ jsUpper sel = jsUpper g)) ∧
    (∀ s t u v : String, jsUpper s = jsUpper u → jsUpper t = jsUpper v →
      isActiveGroup s t = isActiveGroup u v) ∧
    isActiveGroup "antebraço" "ANTEBRAÇO" = true := by
  refine ⟨?_, ?_, ?_⟩
  · intro hmem
    rw [renderGroups, List.mem_map] at hmem
    obtain ⟨x, _, hpair⟩ := hmem
    obtain ⟨rfl, rfl⟩ := Prod.mk.injEq .. |>.mp hpair
    simp [isActiveGroup]
  · intro s t u v h1 h2
    simp [isActiveGroup, h1, h2]
  · decide

/-- C10 witness: the membership clause evaluated on the one-element group
list Costas with costas selected. -/
theorem c10_home_active_group_caseless_witness :
    jsUpper "costas" = jsUpper "Costas" :=
  ((c10_home_active_group_caseless ["Costas"] "costas" "Costas" true).1 (by decide)).mp rfl

end IgniteGym
